import Mathlib

/-!
Verification development for the footprint-geometry engine of the
rpa_footprints repository (rpa_footprints/footprints.py).

Modelling conventions:
* Python floats are idealised as real numbers; the trigonometric functions of
  the math module become the corresponding real functions.
* Python round(x, 3) (round half to even, three decimal places) is modelled by
  roundHalfEven / pyRound3 below.
* A Python function that can raise is modelled with an Option / Except result;
  none (or Except.error) marks the raised exception.
* Values that the pipeline code holds dynamically (a float, the string NA, or
  Python None) are modelled by small sum types (PyVal, HVal).
* The external utm package (from_latlon / to_latlon) is an external
  collaborator; the footprint function is parameterised over it (UTMConv).
-/

namespace RpaFootprints

/-! ## Python rounding: round(x, 3)

Python rounds half to even.  roundHalfEven x is the integer nearest to x,
ties going to the even integer; pyRound3 x = roundHalfEven (1000 x) / 1000. -/

noncomputable def roundHalfEven (x : ℝ) : ℤ :=
  if Int.fract x < 1/2 then ⌊x⌋
  else if 1/2 < Int.fract x then ⌊x⌋ + 1
  else if Even ⌊x⌋ then ⌊x⌋ else ⌊x⌋ + 1

noncomputable def pyRound3 (x : ℝ) : ℝ := (roundHalfEven (1000 * x) : ℝ) / 1000

lemma roundHalfEven_of_fract_lt {x : ℝ} (h : Int.fract x < 1/2) :
    roundHalfEven x = ⌊x⌋ := by
  unfold roundHalfEven; rw [if_pos h]

lemma roundHalfEven_of_fract_gt {x : ℝ} (h : 1/2 < Int.fract x) :
    roundHalfEven x = ⌊x⌋ + 1 := by
  unfold roundHalfEven; rw [if_neg (by linarith), if_pos h]

lemma floor_le_roundHalfEven (x : ℝ) : ⌊x⌋ ≤ roundHalfEven x := by
  unfold roundHalfEven; split_ifs <;> omega

lemma roundHalfEven_le_floor_add_one (x : ℝ) : roundHalfEven x ≤ ⌊x⌋ + 1 := by
  unfold roundHalfEven; split_ifs <;> omega

lemma roundHalfEven_mono {x y : ℝ} (hxy : x ≤ y) :
    roundHalfEven x ≤ roundHalfEven y := by
  have hfl : ⌊x⌋ ≤ ⌊y⌋ := Int.floor_mono hxy
  rcases lt_or_eq_of_le hfl with hlt | heq
  · have h1 := roundHalfEven_le_floor_add_one x
    have h2 := floor_le_roundHalfEven y
    omega
  · have hfr : Int.fract x ≤ Int.fract y := by
      have hxe : Int.fract x = x - (⌊x⌋ : ℝ) := rfl
      have hye : Int.fract y = y - (⌊y⌋ : ℝ) := rfl
      rw [hxe, hye, ← heq]
      linarith
    rcases lt_trichotomy (Int.fract x) (1/2 : ℝ) with ha | ha | ha
    · rw [roundHalfEven_of_fract_lt ha, heq]
      exact floor_le_roundHalfEven y
    · rcases eq_or_lt_of_le hfr with hb | hb
      · have hxy2 : x = y := by
          have hx := Int.floor_add_fract x
          have hy := Int.floor_add_fract y
          rw [← hx, ← hy, heq, hb]
        rw [hxy2]
      · have hy2 : (1/2 : ℝ) < Int.fract y := by rw [← ha]; exact hb
        rw [roundHalfEven_of_fract_gt hy2]
        have := roundHalfEven_le_floor_add_one x
        omega
    · have hy2 : (1/2 : ℝ) < Int.fract y := lt_of_lt_of_le ha hfr
      rw [roundHalfEven_of_fract_gt ha, roundHalfEven_of_fract_gt hy2, heq]

lemma roundHalfEven_eq_of_lt {x : ℝ} {n : ℤ} (h1 : (n : ℝ) ≤ x)
    (h2 : x < (n : ℝ) + 1/2) : roundHalfEven x = n := by
  have hfl : ⌊x⌋ = n := Int.floor_eq_iff.2 ⟨h1, by linarith⟩
  have hfr : Int.fract x < 1/2 := by
    have hxe : Int.fract x = x - (⌊x⌋ : ℝ) := rfl
    rw [hxe, hfl]; linarith
  rw [roundHalfEven_of_fract_lt hfr, hfl]

lemma roundHalfEven_eq_of_gt {x : ℝ} {n : ℤ} (h1 : (n : ℝ) + 1/2 < x)
    (h2 : x < (n : ℝ) + 1) : roundHalfEven x = n + 1 := by
  have hfl : ⌊x⌋ = n := Int.floor_eq_iff.2 ⟨by linarith, by linarith⟩
  have hfr : (1/2 : ℝ) < Int.fract x := by
    have hxe : Int.fract x = x - (⌊x⌋ : ℝ) := rfl
    rw [hxe, hfl]; linarith
  rw [roundHalfEven_of_fract_gt hfr, hfl]

lemma pyRound3_mono {x y : ℝ} (h : x ≤ y) : pyRound3 x ≤ pyRound3 y := by
  unfold pyRound3
  have h1 : roundHalfEven (1000 * x) ≤ roundHalfEven (1000 * y) :=
    roundHalfEven_mono (by linarith)
  have h2 : ((roundHalfEven (1000 * x) : ℝ)) ≤ (roundHalfEven (1000 * y) : ℝ) := by
    exact_mod_cast h1
  linarith

lemma pyRound3_zero : pyRound3 0 = 0 := by
  unfold pyRound3
  have h0 : roundHalfEven ((1000 : ℝ) * 0) = 0 := by
    apply roundHalfEven_eq_of_lt <;> norm_num
  rw [h0]; norm_num

lemma pos_of_pyRound3_pos {x : ℝ} (h : 0 < pyRound3 x) : 0 < x := by
  by_contra hx
  push_neg at hx
  have := pyRound3_mono hx
  rw [pyRound3_zero] at this
  linarith

/-! ## math.radians -/

noncomputable def radians (d : ℝ) : ℝ := d * Real.pi / 180

lemma radians_zero : radians 0 = 0 := by simp [radians]

/-! ## calculate_gsd (footprints.py lines 124-130)

Source:
    ONA = math.radians(float(90 + pitch))
    distance = height / math.cos(ONA)
    gsd = round(100*(distance * sens_dim[0]) / (focal_length * img_dim[0]),3)
    if gsd > 9999 or gsd <= 0:
        gsd = 'NA'
    return gsd

sens0 and img0 stand for sens_dim[0] and img_dim[0]; the returned string NA
is modelled by none. -/

noncomputable def gsd_raw (height pitch focal_length sens0 img0 : ℝ) : ℝ :=
  pyRound3 (100 * (height / Real.cos (radians (90 + pitch)) * sens0) /
    (focal_length * img0))

noncomputable def calculate_gsd (height pitch focal_length sens0 img0 : ℝ) :
    Option ℝ :=
  if gsd_raw height pitch focal_length sens0 img0 > 9999 ∨
      gsd_raw height pitch focal_length sens0 img0 ≤ 0
  then none
  else some (gsd_raw height pitch focal_length sens0 img0)

lemma calculate_gsd_some {h p f sw iw g : ℝ}
    (hg : calculate_gsd h p f sw iw = some g) :
    gsd_raw h p f sw iw = g ∧ 0 < g ∧ g ≤ 9999 := by
  unfold calculate_gsd at hg
  by_cases hc : gsd_raw h p f sw iw > 9999 ∨ gsd_raw h p f sw iw ≤ 0
  · rw [if_pos hc] at hg
    exact absurd hg (by simp)
  · rw [if_neg hc] at hg
    push_neg at hc
    have heq : gsd_raw h p f sw iw = g := by
      exact Option.some.inj hg
    refine ⟨heq, ?_, ?_⟩
    · rw [← heq]; linarith [hc.2]
    · rw [← heq]; exact hc.1

lemma gsd_raw_h1 : gsd_raw 1 (-90) 3 1 100 = 333/1000 := by
  unfold gsd_raw
  rw [show (90 : ℝ) + (-90) = 0 by norm_num, radians_zero, Real.cos_zero]
  rw [show (100 : ℝ) * (1 / 1 * 1) / (3 * 100) = 1/3 by norm_num]
  unfold pyRound3
  have h0 : roundHalfEven ((1000 : ℝ) * (1/3)) = 333 := by
    apply roundHalfEven_eq_of_lt
    · norm_num
    · norm_num
  rw [h0]; norm_num

lemma gsd_raw_h2 : gsd_raw 2 (-90) 3 1 100 = 667/1000 := by
  unfold gsd_raw
  rw [show (90 : ℝ) + (-90) = 0 by norm_num, radians_zero, Real.cos_zero]
  rw [show (100 : ℝ) * (2 / 1 * 1) / (3 * 100) = 2/3 by norm_num]
  unfold pyRound3
  have h0 : roundHalfEven ((1000 : ℝ) * (2/3)) = 666 + 1 := by
    apply roundHalfEven_eq_of_gt
    · norm_num
    · norm_num
  rw [h0]; norm_num

lemma gsd_raw_f6 : gsd_raw 1 (-90) 6 1 100 = 167/1000 := by
  unfold gsd_raw
  rw [show (90 : ℝ) + (-90) = 0 by norm_num, radians_zero, Real.cos_zero]
  rw [show (100 : ℝ) * (1 / 1 * 1) / (6 * 100) = 1/6 by norm_num]
  unfold pyRound3
  have h0 : roundHalfEven ((1000 : ℝ) * (1/6)) = 166 + 1 := by
    apply roundHalfEven_eq_of_gt
    · norm_num
    · norm_num
  rw [h0]; norm_num

lemma calculate_gsd_h1 : calculate_gsd 1 (-90) 3 1 100 = some (333/1000) := by
  unfold calculate_gsd
  rw [gsd_raw_h1, if_neg (by norm_num)]

lemma calculate_gsd_h2 : calculate_gsd 2 (-90) 3 1 100 = some (667/1000) := by
  unfold calculate_gsd
  rw [gsd_raw_h2, if_neg (by norm_num)]

lemma calculate_gsd_f6 : calculate_gsd 1 (-90) 6 1 100 = some (167/1000) := by
  unfold calculate_gsd
  rw [gsd_raw_f6, if_neg (by norm_num)]

/-! ## The footprint geometry (img_footprint_coords, footprints.py lines 134-237)

The utm package is an external collaborator: from_latlon gives
(easting, northing, zone, letter), to_latlon the inverse.  The geometry is
parameterised over it. -/

structure UTMConv where
  fromLatLon : ℝ → ℝ → ℝ × ℝ × ℤ × Char
  toLatLon : ℝ → ℝ → ℤ → Char → ℝ × ℝ

/-- Source line 160-162: pitch = math.radians(-pitch); if pitch == 0: pitch = 1. -/
noncomputable def internal_pitch (pitch : ℝ) : ℝ :=
  if radians (-pitch) = 0 then 1 else radians (-pitch)

/-- Source lines 174, 179: phiYh = atan(SY / Cf / 2), the vertical half-FOV. -/
noncomputable def phi_Yh (SY Cf : ℝ) : ℝ := Real.arctan (SY / Cf / 2)

/-- Source line 182: Kc = A / math.tan(pitch + phiYh), ground distance at centre. -/
noncomputable def Kc (A pitch phiYh : ℝ) : ℝ := A / Real.tan (pitch + phiYh)

/-- Source line 183: Kf = A / math.tan(pitch + phiYh), ground distance at front. -/
noncomputable def Kf (A pitch phiYh : ℝ) : ℝ := A / Real.tan (pitch + phiYh)

/-- Source line 184: Kb = A / math.tan(pitch - phiYh), ground distance at back. -/
noncomputable def Kb (A pitch phiYh : ℝ) : ℝ := A / Real.tan (pitch - phiYh)

/-- Error-sensitive refinement of the ground-distance formula A / tan(theta):
the Python division raises ZeroDivisionError exactly when math.tan returns
zero.  Over the angle range produced by the code (|theta| < pi), the real
tangent vanishes exactly where sin theta = 0; at the poles of tan the float
tangent is finite and huge, so no division error occurs there. -/
noncomputable def ground_dist (A theta : ℝ) : Option ℝ :=
  if Real.sin theta = 0 then none else some (A / Real.tan theta)

/-- Half-width of the frame at the front edge (source lines 187, 192). -/
noncomputable def Wfh (A pitch ratXh phiYh : ℝ) : ℝ :=
  Real.sqrt (A^2 + (Kf A pitch phiYh)^2) * ratXh

/-- Half-width of the frame at the back edge (source lines 188, 193). -/
noncomputable def Wbh (A pitch ratXh phiYh : ℝ) : ℝ :=
  Real.sqrt (A^2 + (Kb A pitch phiYh)^2) * ratXh

/-- Source lines 203-216: x = CamX + W cos(dir) + K sin(dir). -/
noncomputable def rot_x (CamX W K dir : ℝ) : ℝ :=
  CamX + W * Real.cos dir + K * Real.sin dir

/-- Source lines 203-216: y = CamY - W sin(dir) + K cos(dir). -/
noncomputable def rot_y (CamY W K dir : ℝ) : ℝ :=
  CamY - W * Real.sin dir + K * Real.cos dir

/-- Bottom-left corner: W = Wfh, K = Kf (source lines 197, 199, 209-210). -/
noncomputable def BLxy (CamX CamY A pitch dir ratXh phiYh : ℝ) : ℝ × ℝ :=
  (rot_x CamX (Wfh A pitch ratXh phiYh) (Kf A pitch phiYh) dir,
   rot_y CamY (Wfh A pitch ratXh phiYh) (Kf A pitch phiYh) dir)

/-- Bottom-right corner: W = -Wfh, K = Kf (source lines 197, 199, 206-207). -/
noncomputable def BRxy (CamX CamY A pitch dir ratXh phiYh : ℝ) : ℝ × ℝ :=
  (rot_x CamX (-(Wfh A pitch ratXh phiYh)) (Kf A pitch phiYh) dir,
   rot_y CamY (-(Wfh A pitch ratXh phiYh)) (Kf A pitch phiYh) dir)

/-- Top-left corner: W = Wbh, K = Kb (source lines 198, 200, 215-216). -/
noncomputable def TLxy (CamX CamY A pitch dir ratXh phiYh : ℝ) : ℝ × ℝ :=
  (rot_x CamX (Wbh A pitch ratXh phiYh) (Kb A pitch phiYh) dir,
   rot_y CamY (Wbh A pitch ratXh phiYh) (Kb A pitch phiYh) dir)

/-- Top-right corner: W = -Wbh, K = Kb (source lines 198, 200, 212-213). -/
noncomputable def TRxy (CamX CamY A pitch dir ratXh phiYh : ℝ) : ℝ × ℝ :=
  (rot_x CamX (-(Wbh A pitch ratXh phiYh)) (Kb A pitch phiYh) dir,
   rot_y CamY (-(Wbh A pitch ratXh phiYh)) (Kb A pitch phiYh) dir)

/-- Projected bottom-left corner of the footprint, from the raw inputs. -/
noncomputable def footprint_BL (u : UTMConv)
    (lat lon height pitch yaw focal_length : ℝ) (sens_dim : ℝ × ℝ) : ℝ × ℝ :=
  BLxy (u.fromLatLon lat lon).1 (u.fromLatLon lat lon).2.1 height
    (internal_pitch pitch) (radians yaw) (sens_dim.1 / focal_length / 2)
    (phi_Yh sens_dim.2 focal_length)

/-- Projected bottom-right corner of the footprint, from the raw inputs. -/
noncomputable def footprint_BR (u : UTMConv)
    (lat lon height pitch yaw focal_length : ℝ) (sens_dim : ℝ × ℝ) : ℝ × ℝ :=
  BRxy (u.fromLatLon lat lon).1 (u.fromLatLon lat lon).2.1 height
    (internal_pitch pitch) (radians yaw) (sens_dim.1 / focal_length / 2)
    (phi_Yh sens_dim.2 focal_length)

/-- Projected top-left corner of the footprint, from the raw inputs. -/
noncomputable def footprint_TL (u : UTMConv)
    (lat lon height pitch yaw focal_length : ℝ) (sens_dim : ℝ × ℝ) : ℝ × ℝ :=
  TLxy (u.fromLatLon lat lon).1 (u.fromLatLon lat lon).2.1 height
    (internal_pitch pitch) (radians yaw) (sens_dim.1 / focal_length / 2)
    (phi_Yh sens_dim.2 focal_length)

/-- Projected top-right corner of the footprint, from the raw inputs. -/
noncomputable def footprint_TR (u : UTMConv)
    (lat lon height pitch yaw focal_length : ℝ) (sens_dim : ℝ × ℝ) : ℝ × ℝ :=
  TRxy (u.fromLatLon lat lon).1 (u.fromLatLon lat lon).2.1 height
    (internal_pitch pitch) (radians yaw) (sens_dim.1 / focal_length / 2)
    (phi_Yh sens_dim.2 focal_length)

/-- Reprojection of one projected corner to a [lat, lon] pair, using the
camera's own zone and band letter (source lines 222-223). -/
noncomputable def footprint_geo (u : UTMConv) (lat lon : ℝ) (p : ℝ × ℝ) :
    List ℝ :=
  [(u.toLatLon p.1 p.2 (u.fromLatLon lat lon).2.2.1
      (u.fromLatLon lat lon).2.2.2).1,
   (u.toLatLon p.1 p.2 (u.fromLatLon lat lon).2.2.1
      (u.fromLatLon lat lon).2.2.2).2]

/-- img_footprint_coords, output assembly (source lines 219-237).  The
internal lists coords_x / coords_y hold the corners in the source order
[BR, BL, TL, TR]; the emitted list reads them out at indices 1, 2, 3, 0.
The unused intermediates of the source (aspect, Sd, ccf, phiXh, the centre
point) do not influence the output and are omitted; img_dim is kept as a
parameter but, as in the source output, unused. -/
noncomputable def img_footprint_coords (u : UTMConv)
    (lat lon height pitch yaw focal_length : ℝ) (sens_dim img_dim : ℝ × ℝ)
    (return_utm : Bool) : List (List ℝ) :=
  let coords_xy := [footprint_BR u lat lon height pitch yaw focal_length sens_dim,
                    footprint_BL u lat lon height pitch yaw focal_length sens_dim,
                    footprint_TL u lat lon height pitch yaw focal_length sens_dim,
                    footprint_TR u lat lon height pitch yaw focal_length sens_dim]
  if return_utm = false then
    [footprint_geo u lat lon (coords_xy.getD 1 (0, 0)),
     footprint_geo u lat lon (coords_xy.getD 2 (0, 0)),
     footprint_geo u lat lon (coords_xy.getD 3 (0, 0)),
     footprint_geo u lat lon (coords_xy.getD 0 (0, 0))]
  else
    [[(coords_xy.getD 1 (0, 0)).1, (coords_xy.getD 1 (0, 0)).2],
     [(coords_xy.getD 2 (0, 0)).1, (coords_xy.getD 2 (0, 0)).2],
     [(coords_xy.getD 3 (0, 0)).1, (coords_xy.getD 3 (0, 0)).2],
     [(coords_xy.getD 0 (0, 0)).1, (coords_xy.getD 0 (0, 0)).2]]

/-! ## polygon_area (footprints.py lines 240-248)

Shoelace sum over the vertex list with wrap-around, absolute value, halved.
The source performs no length validation. -/

noncomputable def polygon_area (coords : List (ℝ × ℝ)) : ℝ :=
  |((List.range coords.length).map fun i =>
      (coords.getD i (0, 0)).1 * (coords.getD ((i + 1) % coords.length) (0, 0)).2 -
      (coords.getD ((i + 1) % coords.length) (0, 0)).1 * (coords.getD i (0, 0)).2).sum| / 2

/-! ## Dynamic typing at the calculate_gsd call site (generate_footprints line 433)

In generate_footprints the arguments height, pitch and focal_length may hold
either a float or the string NA (set after a failed EXIF derivation).  Python
arithmetic on such a mixed value raises TypeError: with pitch = 'NA' already
90 + pitch raises; with height = 'NA' the division height / cos(...) raises;
with focal_length = 'NA' the string survives the multiplication by the int
image width as a repeated string and the final float/str division raises.
The call at line 433 is not wrapped in any try/except, so the exception
propagates out of generate_footprints.  A raised TypeError is modelled by
none. -/

inductive PyVal where
  | num (x : ℝ)
  | str (s : String)

noncomputable def calculate_gsd_dyn (height pitch focal_length : PyVal)
    (sens0 img0 : ℝ) : Option PyVal :=
  match height, pitch, focal_length with
  | .num h, .num p, .num f =>
      some (match calculate_gsd h p f sens0 img0 with
            | some g => .num g
            | none => .str "NA")
  | _, _, _ => none

/-! ## The sticky height / pitch / sens_dim state of generate_footprints

Source lines 356-369 (height, pitch) and 385-390 (sens_dim):

    if not height:
        try: height = float(exif_dict_single['RelativeAltitude'])
        except: height = 'NA'
    if not pitch:
        try: pitch = float(exif_dict_single['GimbalPitchDegree'])
        except: pitch = 'NA'
    if not sens_dim:
        try: sens_dim = sensor_dimensions_list[model]
        except: print(...)        -- sens_dim left unchanged

height and pitch are None (no caller override), a float, or the string 'NA';
Python falsiness: None and 0.0 are falsy, 'NA' and nonzero floats truthy.
sens_dim is None or a list; None and the empty list are falsy, any nonempty
list (including [0, 0]) truthy.  A field value that is present in the EXIF
record and parses as a float is modelled as some q (rationals suffice for
the control-flow claims); a missing or unparseable field is none. -/

inductive HVal where
  | pynone
  | num (x : ℚ)
  | na
deriving DecidableEq

def hval_falsy : HVal → Bool
  | .pynone => true
  | .num x => x == 0
  | .na => false

def stepSticky (cur : HVal) (field : Option ℚ) : HVal :=
  if hval_falsy cur then
    match field with
    | some v => .num v
    | none => .na
  else cur

/-- The per-image sequence of values actually used (state after the
re-derivation step of each image), across the whole run. -/
def heights_used : HVal → List (Option ℚ) → List HVal
  | _, [] => []
  | h, r :: rs =>
    let h2 := stepSticky h r
    h2 :: heights_used h2 rs

/-- Sensor-dimensions table (source lines 37-41), in millimetres. -/
def sensor_dimensions_list : List (String × List ℚ) :=
  [("m3e", [173/10, 13]),
   ("ZenmuseP1", [359/10, 24]),
   ("iXM-GS120", [0, 0]),
   ("FC3682", [97/10, 73/10])]

def sval_falsy : Option (List ℚ) → Bool
  | none => true
  | some l => l.isEmpty

def stepSens (cur : Option (List ℚ)) (model : Option String) :
    Option (List ℚ) :=
  if sval_falsy cur then
    match model with
    | some m =>
      match sensor_dimensions_list.lookup m with
      | some dims => some dims
      | none => cur
    | none => cur
  else cur

def sens_used : Option (List ℚ) → List (Option String) → List (Option (List ℚ))
  | _, [] => []
  | s, m :: ms =>
    let s2 := stepSens s m
    s2 :: sens_used s2 ms

/-! ## Folder discovery and the batch loop shell (generate_footprints lines 294-322)

A directory is kept when one of its entries has a recognised image extension
(file.lower().split('.')[-1] in img_extensions).  For each kept folder the
external extractor is invoked; when it reports no matching files,
extract_exif_csv (lines 61-65) raises ValueError.  The per-folder record
processing is an injected parameter carrying the sticky state St; any
exception it raises also propagates. -/

def img_extensions : List String := ["jpg", "jpeg", "tif", "tiff", "iiq"]

/-- Like str.split on a dot: splits a character list at every dot, keeping
empty groups, never returning an empty group list. -/
def split_on_dot : List Char → List (List Char)
  | [] => [[]]
  | c :: cs =>
    match split_on_dot cs with
    | [] => [[]]
    | g :: gs => if c = '.' then [] :: g :: gs else (c :: g) :: gs

def last_group : List (List Char) → List Char
  | [] => []
  | [g] => g
  | _ :: g :: gs => last_group (g :: gs)

/-- Python file.lower().split(dot)[-1]: the lower-cased text after the last
dot, or the whole lower-cased name when it has no dot. -/
def file_extension (f : String) : String :=
  String.mk (last_group (split_on_dot (f.data.map Char.toLower)))

def folder_has_image (files : List String) : Bool :=
  files.any fun f => img_extensions.contains (file_extension f)

structure FolderEntry where
  name : String
  files : List String
deriving DecidableEq

structure ExifRec where
  relAlt : Option ℚ
  gimbalPitch : Option ℚ
  model : Option String

def find_image_folders (tree : List FolderEntry) : List FolderEntry :=
  tree.filter fun d => folder_has_image d.files

def run_folders {St A : Type} (extractor : FolderEntry → Option (List ExifRec))
    (processFolder : St → List ExifRec → Except String (St × List A)) :
    List FolderEntry → St → List A → Except String (List A)
  | [], _, acc => .ok acc
  | f :: fs, st, acc =>
    match extractor f with
    | none => .error "Could not find any recognised image types in the input folder."
    | some recs =>
      match processFolder st recs with
      | .error e => .error e
      | .ok (st2, outs) => run_folders extractor processFolder fs st2 (acc ++ outs)

def generate_footprints_model {St A : Type} (tree : List FolderEntry)
    (extractor : FolderEntry → Option (List ExifRec))
    (processFolder : St → List ExifRec → Except String (St × List A))
    (st0 : St) : Except String (List A) :=
  run_folders extractor processFolder (find_image_folders tree) st0 []

/-! ## Spec-side statements of the GSD formula (for claim C4)

gsd_spec_claimed follows the words of the specification literally: no
rounding step, NA exactly on a non-positive or above-9999 value.
gsd_spec_rounded is the amended form with the 3-decimal rounding of the
source inserted. -/

noncomputable def gsd_spec_claimed (height pitch focal_length sens0 img0 : ℝ) :
    Option ℝ :=
  if 100 * (height / Real.cos (radians (90 + pitch))) * sens0 /
      (focal_length * img0) ≤ 0 ∨
     100 * (height / Real.cos (radians (90 + pitch))) * sens0 /
      (focal_length * img0) > 9999
  then none
  else some (100 * (height / Real.cos (radians (90 + pitch))) * sens0 /
    (focal_length * img0))

noncomputable def gsd_spec_rounded (height pitch focal_length sens0 img0 : ℝ) :
    Option ℝ :=
  if pyRound3 (100 * (height / Real.cos (radians (90 + pitch))) * sens0 /
      (focal_length * img0)) ≤ 0 ∨
     pyRound3 (100 * (height / Real.cos (radians (90 + pitch))) * sens0 /
      (focal_length * img0)) > 9999
  then none
  else some (pyRound3 (100 * (height / Real.cos (radians (90 + pitch))) * sens0 /
    (focal_length * img0)))

/-! ## Claim theorems -/

/-- C1: the claim says a missing optic/pose field (the NA sentinel) makes the
per-image GSD/footprint merely unavailable while processing continues.  In
the code the unconditional call calculate_gsd(height, pitch, ...) at line 433
performs arithmetic on the string 'NA' and raises an uncaught TypeError,
aborting the run; the claim (and the spec) state the clear intent, so this is
a code bug.  The theorem evaluates the dynamic model at the failing input:
any record whose pitch was recorded as 'NA' makes the call raise (none),
whatever the other arguments hold. -/
theorem gsd_na_pitch_raises (height focal : PyVal) (sens0 img0 : ℝ) :
    calculate_gsd_dyn height (.str "NA") focal sens0 img0 = none := by
  cases height <;> cases focal <;> rfl

/-- C5: in the footprint computation the ground distance at the image centre
(Kc, line 182) and at the front edge (Kf, line 183) are the same expression
A / tan(pitch + phiYh), and the back edge (Kb, line 184) uses
A / tan(pitch - phiYh). -/
theorem center_front_ground_dist (A pitch phiYh : ℝ) :
    Kc A pitch phiYh = Kf A pitch phiYh ∧
    Kf A pitch phiYh = A / Real.tan (pitch + phiYh) ∧
    Kb A pitch phiYh = A / Real.tan (pitch - phiYh) :=
  ⟨rfl, rfl, rfl⟩

/-- C6: for every input the emitted corner order is bottom-left, top-left,
top-right, bottom-right, both in the geographic ([lat, lon] pairs) output and
in the projected ([x, y] pairs) output: the internal list is [BR, BL, TL, TR]
and the result reads indices 1, 2, 3, 0. -/
theorem footprint_corner_order (u : UTMConv)
    (lat lon height pitch yaw focal_length : ℝ) (sens_dim img_dim : ℝ × ℝ) :
    img_footprint_coords u lat lon height pitch yaw focal_length sens_dim
        img_dim false =
      [footprint_geo u lat lon (footprint_BL u lat lon height pitch yaw focal_length sens_dim),
       footprint_geo u lat lon (footprint_TL u lat lon height pitch yaw focal_length sens_dim),
       footprint_geo u lat lon (footprint_TR u lat lon height pitch yaw focal_length sens_dim),
       footprint_geo u lat lon (footprint_BR u lat lon height pitch yaw focal_length sens_dim)] ∧
    img_footprint_coords u lat lon height pitch yaw focal_length sens_dim
        img_dim true =
      [[(footprint_BL u lat lon height pitch yaw focal_length sens_dim).1,
        (footprint_BL u lat lon height pitch yaw focal_length sens_dim).2],
       [(footprint_TL u lat lon height pitch yaw focal_length sens_dim).1,
        (footprint_TL u lat lon height pitch yaw focal_length sens_dim).2],
       [(footprint_TR u lat lon height pitch yaw focal_length sens_dim).1,
        (footprint_TR u lat lon height pitch yaw focal_length sens_dim).2],
       [(footprint_BR u lat lon height pitch yaw focal_length sens_dim).1,
        (footprint_BR u lat lon height pitch yaw focal_length sens_dim).2]] :=
  ⟨rfl, rfl⟩

/-- C7 counterexample: the claim says a vertex list with fewer than 3
vertices is a validation failure that aborts the area computation.  The
source has no such check: on the two-vertex input [(0,0), (1,1)] the
shoelace loop runs and returns the number 0. -/
theorem degenerate_polygon_returns_number :
    polygon_area [((0 : ℝ), (0 : ℝ)), (1, 1)] = 0 := by
  simp [polygon_area, List.range_succ]

/-- C7 amended: for every input with fewer than 3 vertices, polygon_area
silently returns 0 (the degenerate shoelace sum) instead of failing. -/
theorem degenerate_polygon_area_zero (coords : List (ℝ × ℝ))
    (h : coords.length < 3) : polygon_area coords = 0 := by
  rcases coords with _ | ⟨p, _ | ⟨q, _ | ⟨r, rest⟩⟩⟩
  · simp [polygon_area]
  · simp [polygon_area, List.range_succ]
  · simp [polygon_area, List.range_succ]
  · exfalso
    simp [List.length_cons] at h
    omega

/-- C7 witness: the amended theorem applied at the concrete two-vertex
input. -/
theorem degenerate_polygon_area_zero_witness :
    ([((3 : ℝ), (4 : ℝ)), (5, 6)] : List (ℝ × ℝ)).length < 3 ∧
    polygon_area [((3 : ℝ), (4 : ℝ)), (5, 6)] = 0 :=
  ⟨by simp, degenerate_polygon_area_zero _ (by simp)⟩

/-- C8 counterexample: the claim says that when no directory under the input
root contains a recognised image, the run raises an error.  On a tree whose
only folder holds no image files, folder discovery yields [] and the run
returns ok with no output and without ever invoking the extractor (here an
extractor that would report the no-files condition): a silent successful
no-op, not an error. -/
theorem no_images_silent_ok :
    (generate_footprints_model [⟨"docs", ["readme.txt", "notes.md"]⟩]
      (fun _ => none)
      (fun (st : Unit) (_ : List ExifRec) => Except.ok (st, ([] : List Unit)))
      () : Except String (List Unit)) = Except.ok [] := by
  unfold generate_footprints_model
  rw [show find_image_folders [⟨"docs", ["readme.txt", "notes.md"]⟩] = []
    from by decide]
  rfl

/-- C8 amended: whenever folder discovery finds no image-bearing directory,
the batch run completes silently with the ok result and an empty output
list, for every extractor and every per-folder processing function; the
"no recognised image types" ValueError is only reachable through the
extractor of a discovered folder. -/
theorem no_image_folders_no_error {St A : Type} (tree : List FolderEntry)
    (extractor : FolderEntry → Option (List ExifRec))
    (processFolder : St → List ExifRec → Except String (St × List A))
    (st0 : St) (h : find_image_folders tree = []) :
    generate_footprints_model tree extractor processFolder st0 = Except.ok [] := by
  unfold generate_footprints_model
  rw [h]
  rfl

/-- C8 witness: the amended theorem applied to a concrete imageless tree. -/
theorem no_image_folders_no_error_witness :
    find_image_folders [⟨"d", ["a.txt"]⟩] = [] ∧
    (generate_footprints_model [⟨"d", ["a.txt"]⟩]
      (fun _ => none)
      (fun (st : Unit) (_ : List ExifRec) => Except.ok (st, ([] : List Unit)))
      () : Except String (List Unit)) = Except.ok [] :=
  ⟨by decide, no_image_folders_no_error _ _ _ _ (by decide)⟩

lemma heights_used_const {v : ℚ} (hv : v ≠ 0) (rs : List (Option ℚ)) :
    heights_used (HVal.num v) rs = rs.map fun _ => HVal.num v := by
  induction rs with
  | nil => rfl
  | cons r rs ih =>
    have hf : hval_falsy (HVal.num v) = false := by
      simp [hval_falsy]
      exact hv
    simp [heights_used, stepSticky, hf, ih]

lemma sens_used_const {dims : List ℚ} (hd : dims.isEmpty = false)
    (ms : List (Option String)) :
    sens_used (some dims) ms = ms.map fun _ => some dims := by
  induction ms with
  | nil => rfl
  | cons m ms ih =>
    have hf : sval_falsy (some dims) = false := by simp [sval_falsy, hd]
    simp [sens_used, stepSens, hf, ih]

/-- C2 counterexample: the claim says the value successfully derived from the
first image's EXIF is reused for every subsequent image.  With no override
(pynone) and a first image whose RelativeAltitude is 0 (a successful float
parse, e.g. a photo taken at the takeoff point), the first image uses 0 but
the second image re-derives and uses its own value 100: the first derived
value is not reused. -/
theorem sticky_zero_rederives :
    heights_used HVal.pynone [some 0, some 100] = [HVal.num 0, HVal.num 100] ∧
    HVal.num 100 ≠ HVal.num 0 := by
  constructor
  · rfl
  · decide

/-- C2 amended: when the caller supplies no override and the first image's
EXIF-derived value is truthy (a nonzero number for height/pitch; a list
found in the sensor table - nonempty, hence truthy - for sens_dim), that
first value is reused unchanged for every subsequent image of the run,
across all shoot folders; a derived value of 0 (or 0.0) is falsy and is
re-derived from each subsequent image instead. -/
theorem first_truthy_value_sticks :
    (∀ (v : ℚ), v ≠ 0 → ∀ rest : List (Option ℚ),
      heights_used HVal.pynone (some v :: rest) =
        HVal.num v :: rest.map fun _ => HVal.num v) ∧
    (∀ (m : String) (dims : List ℚ), sensor_dimensions_list.lookup m = some dims →
      dims.isEmpty = false → ∀ rest : List (Option String),
      sens_used none (some m :: rest) = some dims :: rest.map fun _ => some dims) := by
  constructor
  · intro v hv rest
    have h1 : stepSticky HVal.pynone (some v) = HVal.num v := by
      simp [stepSticky, hval_falsy]
    simp [heights_used, h1, heights_used_const hv]
  · intro m dims hm hd rest
    have h1 : stepSens none (some m) = some dims := by
      simp [stepSens, sval_falsy, hm]
    simp [sens_used, h1, sens_used_const hd]

/-- C2 witness: the amended theorem at concrete runs (height 50 sticks over a
later 0 and a later missing field; the m3e sensor pair sticks over a later
missing model). -/
theorem first_truthy_value_sticks_witness :
    ((50 : ℚ) ≠ 0 ∧
      heights_used HVal.pynone [some 50, some 0, none] =
        [HVal.num 50, HVal.num 50, HVal.num 50]) ∧
    (sensor_dimensions_list.lookup "iXM-GS120" = some [0, 0] ∧
      ([0, 0] : List ℚ).isEmpty = false ∧
      sens_used none [some "iXM-GS120", none] =
        [some [0, 0], some [0, 0]]) := by
  refine ⟨⟨by norm_num, ?_⟩, by decide, by decide, ?_⟩
  · have h := first_truthy_value_sticks.1 50 (by norm_num) [some 0, none]
    simpa using h
  · have h := first_truthy_value_sticks.2 "iXM-GS120" [0, 0] (by decide)
      (by decide) [none]
    simpa using h

/-- C10: the re-derivation of height/pitch (stepSticky) and sens_dim
(stepSens) happens exactly when the currently held value is Python-falsy.
Consequences: a held value num 0 (a caller override of 0 or 0.0) is falsy
and is overwritten by the image's EXIF value; the truthy string NA recorded
after a failed derivation persists for every subsequent image, even one
whose EXIF does contain the field (stepSticky na (some v) = na); a truthy
sens_dim list persists, while a failed sensor-table lookup leaves the
falsy sens_dim unchanged. -/
theorem rederive_iff_falsy :
    (∀ (cur : HVal) (f : Option ℚ), hval_falsy cur = false →
      stepSticky cur f = cur) ∧
    (∀ (cur : HVal) (f : Option ℚ), hval_falsy cur = true →
      stepSticky cur f = match f with | some v => HVal.num v | none => HVal.na) ∧
    (∀ v : ℚ, stepSticky (HVal.num 0) (some v) = HVal.num v) ∧
    (∀ f : Option ℚ, stepSticky HVal.na f = HVal.na) ∧
    (∀ (cur : Option (List ℚ)) (m : Option String), sval_falsy cur = false →
      stepSens cur m = cur) ∧
    (∀ (cur : Option (List ℚ)) (m : String) (dims : List ℚ),
      sval_falsy cur = true → sensor_dimensions_list.lookup m = some dims →
      stepSens cur (some m) = some dims) ∧
    (∀ (cur : Option (List ℚ)) (m : String),
      sval_falsy cur = true → sensor_dimensions_list.lookup m = none →
      stepSens cur (some m) = cur) := by
  refine ⟨?_, ?_, ?_, ?_, ?_, ?_, ?_⟩
  · intro cur f h; simp [stepSticky, h]
  · intro cur f h; simp [stepSticky, h]
  · intro v; simp [stepSticky, hval_falsy]
  · intro f; simp [stepSticky, hval_falsy]
  · intro cur m h; simp [stepSens, h]
  · intro cur m dims h hm; simp [stepSens, h, hm]
  · intro cur m h hm; simp [stepSens, h, hm]

/-- C10 witness: the conjuncts of rederive_iff_falsy applied at concrete
inputs: a truthy held height 5 survives an EXIF field 7; a falsy None is
replaced by the EXIF field 7; a zero override is overwritten; NA persists
over a present field; a truthy sensor pair survives; an unknown model leaves
the unset sens_dim unchanged. -/
theorem rederive_iff_falsy_witness :
    (hval_falsy (HVal.num 5) = false ∧ stepSticky (HVal.num 5) (some 7) = HVal.num 5) ∧
    (hval_falsy HVal.pynone = true ∧ stepSticky HVal.pynone (some 7) = HVal.num 7) ∧
    stepSticky (HVal.num 0) (some 7) = HVal.num 7 ∧
    stepSticky HVal.na (some 7) = HVal.na ∧
    (sval_falsy (some [1, 2]) = false ∧
      stepSens (some [1, 2]) (some "m3e") = some [1, 2]) ∧
    (sval_falsy none = true ∧ sensor_dimensions_list.lookup "nope" = none ∧
      stepSens none (some "nope") = none) := by
  refine ⟨⟨by decide, rederive_iff_falsy.1 _ _ (by decide)⟩,
    ⟨by decide, ?_⟩,
    rederive_iff_falsy.2.2.1 7,
    rederive_iff_falsy.2.2.2.1 (some 7),
    ⟨by decide, rederive_iff_falsy.2.2.2.2.1 _ _ (by decide)⟩,
    ⟨by decide, by decide, rederive_iff_falsy.2.2.2.2.2.2 _ _ (by decide) (by decide)⟩⟩
  · have h := rederive_iff_falsy.2.1 HVal.pynone (some 7) (by decide)
    simpa using h

lemma internal_pitch_zero : internal_pitch 0 = 1 := by
  unfold internal_pitch
  rw [if_pos (by simp [radians])]

/-- C3 counterexample: the claim says the guard (internal pitch 1 at input
pitch 0) means the tangent-based ground-distance formulas never divide by
zero.  In exact arithmetic this fails: with focal length 1 and sensor height
2 tan(1) the vertical half-FOV angle phiYh is exactly 1 radian, so the
back-edge denominator tan(pitch - phiYh) = tan(1 - 1) = tan 0 = 0 and the
back-edge ground distance Kb = A / tan(...) divides by zero even though the
substitution took place. -/
theorem pitch_guard_cex :
    internal_pitch 0 = 1 ∧
    phi_Yh (2 * Real.tan 1) 1 = 1 ∧
    ground_dist 50 (internal_pitch 0 - phi_Yh (2 * Real.tan 1) 1) = none := by
  have hpi := Real.pi_gt_three
  have h2 : phi_Yh (2 * Real.tan 1) 1 = 1 := by
    unfold phi_Yh
    rw [show (2 * Real.tan 1) / 1 / 2 = Real.tan 1 by ring]
    exact Real.arctan_tan (by linarith) (by linarith)
  refine ⟨internal_pitch_zero, h2, ?_⟩
  rw [internal_pitch_zero, h2]
  unfold ground_dist
  rw [if_pos (by norm_num)]

/-- C3 amended: for input pitch exactly 0 the computation substitutes an
internal pitch of 1 radian (radians(-0) = 0); for every other pitch in
(-90, 0) the conversion radians(-pitch) is nonzero and no substitution
occurs; with the substituted pitch the tangent-based ground-distance
formulas (front/centre denominator tan(1 + phiYh), back denominator
tan(1 - phiYh)) incur no division by zero provided the vertical half-FOV
angle phiYh = arctan(sensorHeight / focal / 2) is not exactly 1 radian --
the degenerate case exhibited by the counterexample. -/
theorem pitch_guard_amended (SY Cf p A : ℝ) (hS : 0 < SY) (hC : 0 < Cf)
    (hphi : phi_Yh SY Cf ≠ 1) (_hp1 : -90 < p) (hp2 : p < 0) :
    internal_pitch 0 = 1 ∧
    internal_pitch p = radians (-p) ∧ radians (-p) ≠ 0 ∧
    (ground_dist A (internal_pitch 0 + phi_Yh SY Cf)).isSome = true ∧
    (ground_dist A (internal_pitch 0 - phi_Yh SY Cf)).isSome = true := by
  have hpi := Real.pi_gt_three
  have hphi_pos : 0 < phi_Yh SY Cf := by
    unfold phi_Yh
    rw [← Real.arctan_zero]
    exact Real.arctan_strictMono (by positivity)
  have hphi_lt : phi_Yh SY Cf < Real.pi / 2 := Real.arctan_lt_pi_div_two _
  have hr : radians (-p) ≠ 0 := by
    unfold radians
    have hp : 0 < -p := by linarith
    have hpip : 0 < Real.pi := by linarith
    positivity
  refine ⟨internal_pitch_zero, ?_, hr, ?_, ?_⟩
  · unfold internal_pitch
    rw [if_neg hr]
  · rw [internal_pitch_zero]
    unfold ground_dist
    rw [if_neg ?_]
    · rfl
    · have hl : 0 < 1 + phi_Yh SY Cf := by linarith
      have hu : 1 + phi_Yh SY Cf < Real.pi := by linarith
      exact ne_of_gt (Real.sin_pos_of_pos_of_lt_pi hl hu)
  · rw [internal_pitch_zero]
    unfold ground_dist
    rw [if_neg ?_]
    · rfl
    · intro hs0
      have hb1 : -Real.pi < 1 - phi_Yh SY Cf := by linarith
      have hb2 : 1 - phi_Yh SY Cf < Real.pi := by linarith
      have h0 := (Real.sin_eq_zero_iff_of_lt_of_lt hb1 hb2).1 hs0
      exact hphi (by linarith)

/-- C3 witness: the amended theorem at sensor height 2, focal length 1 (so
phiYh = arctan 1 = pi/4, not 1 radian), pitch -45 and height 50. -/
theorem pitch_guard_amended_witness :
    phi_Yh 2 1 ≠ 1 ∧ internal_pitch (-45) = radians 45 ∧
    (ground_dist 50 (internal_pitch 0 - phi_Yh 2 1)).isSome = true := by
  have hphi : phi_Yh 2 1 = Real.pi / 4 := by
    unfold phi_Yh
    rw [show (2 : ℝ) / 1 / 2 = 1 by norm_num]
    exact Real.arctan_one
  have hne : phi_Yh 2 1 ≠ 1 := by
    rw [hphi]
    have := Real.pi_lt_d2
    intro h
    linarith
  have h := pitch_guard_amended 2 1 (-45) 50 (by norm_num) (by norm_num) hne
    (by norm_num) (by norm_num)
  refine ⟨hne, ?_, h.2.2.2.2⟩
  have h2 := h.2.1
  norm_num at h2
  exact h2

/-- C4 counterexample: the claim states the returned value is exactly
100 * distance * sensorWidth / (focalLength * imageWidth) when that value is
in range.  The source rounds to 3 decimals first: at height 1, pitch -90,
focal 3, sensor width 1, image width 100 the claimed value is 1/3 but the
code returns 0.333. -/
theorem gsd_rounding_cex :
    gsd_spec_claimed 1 (-90) 3 1 100 = some (1/3) ∧
    calculate_gsd 1 (-90) 3 1 100 = some (333/1000) ∧
    calculate_gsd 1 (-90) 3 1 100 ≠ gsd_spec_claimed 1 (-90) 3 1 100 := by
  have h1 : gsd_spec_claimed 1 (-90) 3 1 100 = some (1/3) := by
    unfold gsd_spec_claimed
    rw [show (90 : ℝ) + (-90) = 0 by norm_num, radians_zero, Real.cos_zero]
    rw [show (100 : ℝ) * (1 / 1) * 1 / (3 * 100) = 1/3 by norm_num]
    rw [if_neg (by norm_num)]
  refine ⟨h1, calculate_gsd_h1, ?_⟩
  rw [h1, calculate_gsd_h1]
  simp
  norm_num

/-- C4 amended: calculate_gsd computes distance = height / cos(radians(90 +
pitch)) and the raw value 100 * distance * sensorWidth / (focalLength *
imageWidth), rounds it to 3 decimal places (Python round, half to even),
and returns NA exactly when the rounded value is non-positive or exceeds
9999, otherwise the rounded value. -/
theorem gsd_formula_amended (h p f s i : ℝ) :
    calculate_gsd h p f s i = gsd_spec_rounded h p f s i := by
  unfold calculate_gsd gsd_spec_rounded gsd_raw
  rw [show 100 * (h / Real.cos (radians (90 + p)) * s) / (f * i)
      = 100 * (h / Real.cos (radians (90 + p))) * s / (f * i) by ring]
  by_cases h1 : pyRound3 (100 * (h / Real.cos (radians (90 + p))) * s / (f * i)) > 9999
  · rw [if_pos (Or.inl h1), if_pos (Or.inr h1)]
  · by_cases h2 : pyRound3 (100 * (h / Real.cos (radians (90 + p))) * s / (f * i)) ≤ 0
    · rw [if_pos (Or.inr h2), if_pos (Or.inl h2)]
    · rw [if_neg (by tauto), if_neg (by tauto)]

lemma cos_radians_nonneg {p : ℝ} (hp1 : -90 ≤ p) (hp2 : p ≤ 0) :
    0 ≤ Real.cos (radians (90 + p)) := by
  have hpi := Real.pi_pos
  apply Real.cos_nonneg_of_mem_Icc
  constructor
  · have h0 : 0 ≤ (90 + p) * Real.pi / 180 := by
      apply div_nonneg _ (by norm_num)
      apply mul_nonneg (by linarith) hpi.le
    unfold radians
    linarith
  · unfold radians
    have h1 : (90 + p) * Real.pi ≤ 90 * Real.pi := by nlinarith
    calc (90 + p) * Real.pi / 180 ≤ 90 * Real.pi / 180 := by linarith
      _ = Real.pi / 2 := by ring

lemma cos_radians_pos_of_gsd_some {h p f sw iw g : ℝ} (hp1 : -90 ≤ p)
    (hp2 : p ≤ 0) (hg : calculate_gsd h p f sw iw = some g) :
    0 < Real.cos (radians (90 + p)) := by
  obtain ⟨heq, hgpos, _⟩ := calculate_gsd_some hg
  rcases lt_or_eq_of_le (cos_radians_nonneg hp1 hp2) with hlt | hc0
  · exact hlt
  · exfalso
    have hz : gsd_raw h p f sw iw = 0 := by
      unfold gsd_raw
      rw [← hc0]
      simp [pyRound3_zero]
    rw [heq] at hz
    linarith

/-- C9: with the data-model invariants of the specification (positive focal
length, sensor width and image width, pitch in the downward range), whenever
two calls of calculate_gsd return numeric values, the GSD is monotonically
non-decreasing in height and monotonically non-increasing in focal length,
everything else fixed. -/
theorem gsd_monotone :
    (∀ p f sw iw h1 h2 g1 g2 : ℝ, -90 ≤ p → p ≤ 0 → 0 < f → 0 < sw → 0 < iw →
      h1 ≤ h2 → calculate_gsd h1 p f sw iw = some g1 →
      calculate_gsd h2 p f sw iw = some g2 → g1 ≤ g2) ∧
    (∀ p h sw iw f1 f2 g1 g2 : ℝ, 0 < iw → 0 < f1 → f1 ≤ f2 →
      calculate_gsd h p f1 sw iw = some g1 →
      calculate_gsd h p f2 sw iw = some g2 → g2 ≤ g1) := by
  constructor
  · intro p f sw iw h1 h2 g1 g2 hp1 hp2 hf hsw hiw hh hg1 hg2
    obtain ⟨he1, _, _⟩ := calculate_gsd_some hg1
    obtain ⟨he2, _, _⟩ := calculate_gsd_some hg2
    have hcos : 0 < Real.cos (radians (90 + p)) :=
      cos_radians_pos_of_gsd_some hp1 hp2 hg1
    have hmono : 100 * (h1 / Real.cos (radians (90 + p)) * sw) / (f * iw) ≤
        100 * (h2 / Real.cos (radians (90 + p)) * sw) / (f * iw) := by
      have hd : h1 / Real.cos (radians (90 + p)) ≤
          h2 / Real.cos (radians (90 + p)) :=
        div_le_div_of_nonneg_right hh hcos.le
      have hm1 := mul_le_mul_of_nonneg_right hd hsw.le
      have hm2 := mul_le_mul_of_nonneg_left hm1 (by norm_num : (0:ℝ) ≤ 100)
      exact div_le_div_of_nonneg_right hm2 (by positivity)
    have := pyRound3_mono hmono
    unfold gsd_raw at he1 he2
    rw [he1, he2] at this
    exact this
  · intro p h sw iw f1 f2 g1 g2 hiw hf1 hff hg1 hg2
    obtain ⟨he1, hg1pos, _⟩ := calculate_gsd_some hg1
    obtain ⟨he2, _, _⟩ := calculate_gsd_some hg2
    have hf2 : 0 < f2 := lt_of_lt_of_le hf1 hff
    have hinner1_pos : 0 < 100 * (h / Real.cos (radians (90 + p)) * sw) / (f1 * iw) := by
      apply pos_of_pyRound3_pos
      unfold gsd_raw at he1
      rw [he1]
      exact hg1pos
    have hN_pos : 0 < 100 * (h / Real.cos (radians (90 + p)) * sw) := by
      by_contra hN
      push_neg at hN
      have : 100 * (h / Real.cos (radians (90 + p)) * sw) / (f1 * iw) ≤ 0 :=
        div_nonpos_of_nonpos_of_nonneg hN (by positivity)
      linarith
    have hmono : 100 * (h / Real.cos (radians (90 + p)) * sw) / (f2 * iw) ≤
        100 * (h / Real.cos (radians (90 + p)) * sw) / (f1 * iw) := by
      apply div_le_div_of_nonneg_left hN_pos.le (by positivity)
      exact mul_le_mul_of_nonneg_right hff hiw.le
    have := pyRound3_mono hmono
    unfold gsd_raw at he1 he2
    rw [he1, he2] at this
    exact this

/-- C9 witness: the monotonicity theorem applied at concrete inputs: raising
the height from 1 to 2 raises the GSD (0.333 to 0.667); raising the focal
length from 3 to 6 lowers it (0.333 to 0.167). -/
theorem gsd_monotone_witness :
    calculate_gsd 1 (-90) 3 1 100 = some (333/1000) ∧
    calculate_gsd 2 (-90) 3 1 100 = some (667/1000) ∧
    ((333 : ℝ)/1000 ≤ 667/1000) ∧
    calculate_gsd 1 (-90) 6 1 100 = some (167/1000) ∧
    ((167 : ℝ)/1000 ≤ 333/1000) := by
  refine ⟨calculate_gsd_h1, calculate_gsd_h2, ?_, calculate_gsd_f6, ?_⟩
  · exact gsd_monotone.1 (-90) 3 1 100 1 2 (333/1000) (667/1000)
      (by norm_num) (by norm_num) (by norm_num) (by norm_num) (by norm_num)
      (by norm_num) calculate_gsd_h1 calculate_gsd_h2
  · exact gsd_monotone.2 (-90) 1 1 100 3 6 (333/1000) (167/1000)
      (by norm_num) (by norm_num) (by norm_num) calculate_gsd_h1 calculate_gsd_f6

end RpaFootprints
